import Mathlib

/-!
Verification of the authentication-and-entitlement gate of the
shopify-currency-converter server.

The development shallowly embeds the gate logic of `src/server/index.js`
(the primary server) and of the second server variant contained in
`src/unnamed/part_001` (lines 1137-2693 of that file; referred to below as
the "V2" variant).  JavaScript strings are modelled as `String`, JavaScript
string truthiness (`''` and `undefined`/absent are falsy) as explicit
checks on `Option String`, millisecond timestamps as `Int`, and the
in-memory `Map`-backed session storage as a `List Session` in insertion
order (JavaScript `Map.set` on an existing key keeps the original insertion
position, which the model mirrors by replacing in place).

External collaborators (the session-token decode service, the token
exchange service, the entitlement GraphQL query and the HMAC crypto
primitive) are I/O calls of the source; they enter the model as explicit
inputs describing the collaborator's response for the request under
consideration, including an error case for a thrown exception.
-/

namespace ShopifyGate

/-! ## JavaScript-style helpers -/

/-- Truthiness of an optional JavaScript string: absent (`undefined`) and
the empty string are falsy. -/
def strTruthy : Option String → Bool
  | none => false
  | some s => !s.isEmpty

/-- Model of the JavaScript `a || b` on (possibly absent) strings: yields
`a` when `a` is truthy and `b` otherwise. -/
def jsOrStr (a b : Option String) : Option String :=
  if strTruthy a then a else b

/-- Model of JavaScript `str.includes(pat)`: `pat` occurs as a contiguous
substring of `s`. -/
def strIncludes (s pat : String) : Bool :=
  (List.range (s.length + 1)).any (fun i => pat.isPrefixOf (s.drop i))

/-! ## Subscriptions and the entitlement rule -/

/-- One record of `currentAppInstallation.activeSubscriptions` as consumed
by the billing middlewares (`id`, `status`, `trialDays`, `createdAt`).
`createdAt` is a millisecond epoch timestamp. -/
structure Subscription where
  id : String
  status : String
  trialDays : Int
  createdAt : Int
deriving Repr, DecidableEq

/-- Milliseconds in one day.  The source computes the trial end with
`trialEndDate.setDate(trialEndDate.getDate() + sub.trialDays)`, which adds
exactly `trialDays` days; the model works in milliseconds (exact for a
UTC clock, which the deployment uses). -/
def msPerDay : Int := 86400000

/-- The per-record entitlement rule shared by `requiresSubscription`
(src/server/index.js lines 517-527) and `checkBillingOnAppLoad` (lines
455-472): a record grants access when `status === 'ACTIVE'`, or when
`status === 'PENDING'`, `trialDays > 0` and `new Date() < trialEndDate`. -/
def subscriptionGrants (now : Int) (sub : Subscription) : Bool :=
  if sub.status == "ACTIVE" then true
  else if sub.status == "PENDING" && decide (0 < sub.trialDays) then
    decide (now < sub.createdAt + sub.trialDays * msPerDay)
  else false

/-- Model of `subscriptions.some(...)` over the per-record rule. -/
def hasValidSubscription (now : Int) (subs : List Subscription) : Bool :=
  subs.any (subscriptionGrants now)

/-- Modelled from the spec's words, for comparison with the code's
`subscriptionGrants`: "a subscription counts as granting access if
`status == ACTIVE`, or if `status == PENDING` and
`now < createdAt + trialDays days`" (no `trialDays > 0` guard). -/
def specSubscriptionGrants (now : Int) (sub : Subscription) : Bool :=
  sub.status == "ACTIVE" ||
    (sub.status == "PENDING" && decide (now < sub.createdAt + sub.trialDays * msPerDay))

theorem subscriptionGrants_eq_true_iff (now : Int) (sub : Subscription) :
    subscriptionGrants now sub = true ↔
      sub.status = "ACTIVE" ∨
        (sub.status = "PENDING" ∧ 0 < sub.trialDays ∧
          now < sub.createdAt + sub.trialDays * msPerDay) := by
  unfold subscriptionGrants
  by_cases h1 : sub.status = "ACTIVE"
  · simp [h1]
  · by_cases h2 : sub.status = "PENDING"
    · simp [h1, h2]
    · simp [h1, h2]

/-! ## Entitlement enforcement middlewares (src/server/index.js) -/

/-- Outcome of a billing middleware for one request: pass the request to
the next handler, issue a redirect, or set an HTTP error status.  The two
billing middlewares of the source never set an error status; the
constructor exists so that this is a provable fact rather than one built
into the type. -/
inductive GateOutcome where
  | next
  | redirect (url : String)
  | errorStatus (code : Nat)
deriving Repr, DecidableEq

/-- Result of `requiresSubscription`: the control-flow outcome together
with the value of `ctx.state.hasActiveSubscription` (absent when the
query threw before the assignment ran). -/
structure EnforceResult where
  outcome : GateOutcome
  hasActiveSubscription : Option Bool
deriving Repr, DecidableEq

/-- Model of `requiresSubscription` (src/server/index.js lines 493-549), as a
function of the request path, the evaluation time and the entitlement
query's result (`Except.error` models the GraphQL call throwing). -/
def requiresSubscription (path : String) (now : Int)
    (q : Except Unit (List Subscription)) : EnforceResult :=
  match q with
  | .error _ => ⟨.next, none⟩
  | .ok subs =>
    let has := hasValidSubscription now subs
    if strIncludes path "/api/billing" || strIncludes path "/api/subscription" then
      ⟨.next, some has⟩
    else if !has && path != "/" then
      ⟨.redirect "/?billing=required", some has⟩
    else
      ⟨.next, some has⟩

/-! ## Sessions and the in-memory session store -/

/-- A stored Shopify `Session` as constructed by the server.  `accessToken`
is `none` when the field is absent; the JavaScript truthiness check
`!session.accessToken` also rejects the empty string, which `strTruthy`
mirrors. -/
structure Session where
  id : String
  shop : String
  state : String
  isOnline : Bool
  accessToken : Option String
  scope : String
deriving Repr, DecidableEq

/-- Model of `memorySessionStorage.storeSession` (src/server/index.js lines 24-27):
`Map.set` keyed by `session.id` — an existing entry keeps its insertion
position and is overwritten in place, otherwise the session is appended. -/
def storeSession (store : List Session) (s : Session) : List Session :=
  if store.any (fun t => t.id == s.id) then
    store.map (fun t => if t.id == s.id then s else t)
  else
    store ++ [s]

/-- Model of `memorySessionStorage.findSessionsByShop` (src/server/index.js lines
38-46): the linear scan collecting sessions of the given shop in store
order. -/
def findSessionsByShop (store : List Session) (shop : String) : List Session :=
  store.filter (fun s => s.shop == shop)

/-- The validity test applied to a found session by `authenticateRequest`
(the negation of `!session.accessToken || session.accessToken ===
'placeholder'`). -/
def validToken : Option String → Bool
  | none => false
  | some t => !t.isEmpty && t != "placeholder"

/-- Model of `sessions.find(s => !s.isOnline)` after `findSessionsByShop`: the first
non-online session for the shop in store order, if any. -/
def resolveOfflineSession (store : List Session) (shop : String) : Option Session :=
  (findSessionsByShop store shop).find? (fun s => !s.isOnline)

/-- The provisioning condition of `authenticateRequest`
(`!session || !session.accessToken || session.accessToken ===
'placeholder'`). -/
def needsTokenExchange (store : List Session) (shop : String) : Bool :=
  match resolveOfflineSession store shop with
  | none => true
  | some s => !(validToken s.accessToken)

/-! ## The session resolver (auth middleware) -/

/-- An inbound request as seen by the resolver: the raw `authorization`
header (absent when the header is missing) and `ctx.query` as key/value
pairs in order, plus `ctx.path`. -/
structure AuthRequest where
  authHeader : Option String
  query : List (String × String)
  path : String
deriving Repr, DecidableEq

/-- Lookup of a query parameter (`ctx.query.<k>`). -/
def queryGet (q : List (String × String)) (k : String) : Option String :=
  (q.find? (fun p => p.1 == k)).map (fun p => p.2)

/-- Model of `getSessionTokenHeader` (src/server/index.js lines 268-270):
`ctx.headers['authorization']?.replace('Bearer ', '')`.  The JavaScript
`replace` rewrites the first occurrence; `String.replace` rewrites all,
which agrees on every header whose token does not itself contain the
substring `"Bearer "`. -/
def getSessionTokenHeader (r : AuthRequest) : Option String :=
  r.authHeader.map (fun s => s.replace "Bearer " "")

/-- Model of `getSessionTokenFromUrlParam` (src/server/index.js lines 272-274). -/
def getSessionTokenFromUrlParam (r : AuthRequest) : Option String :=
  queryGet r.query "id_token"

/-- The token extraction of `authenticateRequest`:
`getSessionTokenHeader(ctx) || getSessionTokenFromUrlParam(ctx)`, with
`none` when the combined result is falsy (the `if (!encodedSessionToken)`
branch). -/
def extractSessionToken (r : AuthRequest) : Option String :=
  let t := jsOrStr (getSessionTokenHeader r) (getSessionTokenFromUrlParam r)
  if strTruthy t then t else none

/-- Serialization of query parameters in the style of
`URLSearchParams.toString()`.  The model keeps keys and values verbatim
(the source additionally percent-encodes reserved characters); the
theorems about the bounce redirect are therefore stated at the level of
the parameter list. -/
def serializeParams (ps : List (String × String)) : String :=
  String.intercalate "&" (ps.map (fun p => p.1 ++ "=" ++ p.2))

/-- The parameter list of the bounce redirect built by
`redirectToSessionTokenBouncePage` (src/server/index.js lines 276-281):
copy `ctx.query`, delete every `id_token` entry, then append
`shopify-reload` carrying the original path with the remaining
parameters. -/
def bounceParams (path : String) (query : List (String × String)) :
    List (String × String) :=
  let sp := query.filter (fun p => p.1 != "id_token")
  sp ++ [("shopify-reload", path ++ "?" ++ serializeParams sp)]

/-- The redirect target produced by `redirectToSessionTokenBouncePage`. -/
def redirectToSessionTokenBouncePage (path : String)
    (query : List (String × String)) : String :=
  "/session-token-bounce?" ++ serializeParams (bounceParams path query)

/-- Per-request outcome of the resolver: bounce-page redirect, 401 with
the retry header, 500 (`Token exchange failed`), or attach `(shop,
session)` to `ctx.state` and invoke the downstream handler. -/
inductive AuthOutcome where
  | bounce (target : String)
  | unauthorized
  | serverError (body : String)
  | proceed (shop : String) (session : Session)
deriving Repr, DecidableEq

/-- Result of one resolver invocation: the outcome, the session store
after the request, and whether the external token exchange call was
made. -/
structure AuthResult where
  outcome : AuthOutcome
  store : List Session
  exchanged : Bool
deriving Repr, DecidableEq

/-- The branch of `authenticateRequest` taken when no (or no decodable)
session token is available: bounce for document requests (no truthy
`authorization` header), 401 otherwise. -/
def noTokenResponse (r : AuthRequest) (store : List Session) : AuthResult :=
  if !(strTruthy r.authHeader) then
    ⟨.bounce (redirectToSessionTokenBouncePage r.path r.query), store, false⟩
  else
    ⟨.unauthorized, store, false⟩

/-- A successfully decoded session token as the resolver consumes it:
`destHost` stands for `new URL(decodedSessionToken.dest).hostname` (the
URL parsing is a platform builtin) and `iss` is the issuer claim. -/
structure Decoded where
  destHost : String
  iss : String
deriving Repr, DecidableEq

/-- Result of `shopify.auth.tokenExchange` in the primary server, as the
caller consumes it. -/
structure TokenXResult where
  accessToken : String
  scope : String
deriving Repr, DecidableEq

/-- The provisioning step of the primary `authenticateRequest`
(src/server/index.js lines 349-375): on exchange success build a new
offline session with id `` `${shop}_offline` `` and store it; on an
exchange error respond 500.  `exchanged = true` records that the external
call was made. -/
def provisionV1 (shop : String) (exchange : Except Unit TokenXResult)
    (store : List Session) : AuthResult :=
  match exchange with
  | .error _ => ⟨.serverError "Token exchange failed", store, true⟩
  | .ok tx =>
    let s : Session := ⟨shop ++ "_offline", shop, "active", false, some tx.accessToken, tx.scope⟩
    ⟨.proceed shop s, storeSession store s, true⟩

/-- Model of `authenticateRequest` of src/server/index.js (lines 299-382).
`decodeResult` is the response of the external
`shopify.session.decodeSessionToken` call for this request's token
(`none` when decode throws); its `destHost` field stands for
`new URL(decoded.dest).hostname`.  `exchange` is the response of the
external token exchange call, consulted only when provisioning runs. -/
def authenticateRequest (r : AuthRequest) (decodeResult : Option Decoded)
    (exchange : Except Unit TokenXResult) (store : List Session) : AuthResult :=
  match extractSessionToken r with
  | none => noTokenResponse r store
  | some _ =>
    match decodeResult with
    | none => noTokenResponse r store
    | some d =>
      let shop := d.destHost
      match resolveOfflineSession store shop with
      | some sess =>
        if validToken sess.accessToken then ⟨.proceed shop sess, store, false⟩
        else provisionV1 shop exchange store
      | none => provisionV1 shop exchange store

/-! ## The V2 session resolver (src/unnamed/part_001, lines 1333-1432) -/

/-- Result of `shopify.auth.tokenExchange` as the V2 resolver consumes it:
`accessToken` may live directly on the result or under `result.session`
(`tokenExchangeResult.accessToken || tokenExchangeResult.session?.accessToken`),
and similarly for `scope`. -/
structure TokenXResultV2 where
  accessToken : Option String
  sessionAccessToken : Option String
  scope : Option String
  sessionScope : Option String
deriving Repr, DecidableEq

/-- The provisioning step of the V2 resolver (part_001 lines 1390-1425):
resolve the access token through the `||` chain, respond 500 when it is
falsy, otherwise build and store a session with id `` `offline_${shop}` ``
and scope `session?.scope || scope || SCOPES`. -/
def provisionV2 (SCOPES shop : String) (exchange : Except Unit TokenXResultV2)
    (store : List Session) : AuthResult :=
  match exchange with
  | .error _ => ⟨.serverError "Token exchange failed", store, true⟩
  | .ok tx =>
    let tokenOpt := jsOrStr tx.accessToken tx.sessionAccessToken
    if !(strTruthy tokenOpt) then
      ⟨.serverError "Token exchange failed - no access token", store, true⟩
    else
      let scope := (jsOrStr (jsOrStr tx.sessionScope tx.scope) (some SCOPES)).getD ""
      let s : Session := ⟨"offline_" ++ shop, shop, "active", false, tokenOpt, scope⟩
      ⟨.proceed shop s, storeSession store s, true⟩

/-- The shop the V2 resolver ends up trusting (part_001 lines 1374-1382):
the decoded `dest` hostname, except that a truthy `ctx.query.shop`
differing from it replaces it. -/
def effectiveShopV2 (d : Decoded) (query : List (String × String)) : String :=
  match queryGet query "shop" with
  | some qs => if !qs.isEmpty && qs != d.destHost then qs else d.destHost
  | none => d.destHost

/-- Model of `authenticateRequest` of the V2 server variant (part_001 lines
1333-1432).  It differs from the primary resolver in the shop derivation
(`effectiveShopV2`), the session id (`offline_<shop>`) and the handling of
the exchange result (`provisionV2`). -/
def authenticateRequestV2 (SCOPES : String) (r : AuthRequest)
    (decodeResult : Option Decoded) (exchange : Except Unit TokenXResultV2)
    (store : List Session) : AuthResult :=
  match extractSessionToken r with
  | none => noTokenResponse r store
  | some _ =>
    match decodeResult with
    | none => noTokenResponse r store
    | some d =>
      let shop := effectiveShopV2 d r.query
      match resolveOfflineSession store shop with
      | some sess =>
        if validToken sess.accessToken then ⟨.proceed shop sess, store, false⟩
        else provisionV2 SCOPES shop exchange store
      | none => provisionV2 SCOPES shop exchange store

/-! ## `checkBillingOnAppLoad` (src/server/index.js lines 385-490) -/

/-- Result of `checkBillingOnAppLoad`: the control-flow outcome together
with `ctx.state.showBillingPrompt` (set only in the `catch` branch). -/
structure AppLoadResult where
  outcome : GateOutcome
  showBillingPrompt : Bool
deriving Repr, DecidableEq

/-- Model of `checkBillingOnAppLoad`: skip for auth/billing routes, missing shop
parameter or `billing=required`; skip when no non-online session with a
truthy token exists; otherwise evaluate the subscriptions and redirect to
`/?billing=required&shop=<shop>` when none grants access.  A thrown
entitlement query (`Except.error`) is caught: the middleware sets
`showBillingPrompt` and passes the request on. -/
def checkBillingOnAppLoad (path : String) (shopParam billingParam : Option String)
    (store : List Session) (now : Int)
    (q : Except Unit (List Subscription)) : AppLoadResult :=
  if path == "/auth" || path == "/auth/callback" || path.startsWith "/api/billing" then
    ⟨.next, false⟩
  else if !(strTruthy shopParam) then
    ⟨.next, false⟩
  else if billingParam == some "required" then
    ⟨.next, false⟩
  else
    let shop := shopParam.getD ""
    match resolveOfflineSession store shop with
    | none => ⟨.next, false⟩
    | some sess =>
      if !(strTruthy sess.accessToken) then ⟨.next, false⟩
      else
        match q with
        | .error _ => ⟨.next, true⟩
        | .ok subs =>
          if hasValidSubscription now subs then ⟨.next, false⟩
          else ⟨.redirect ("/?billing=required&shop=" ++ shop), false⟩

/-! ## The cached billing-status endpoint (part_001 lines 1568-1659) -/

/-- Model of `SUBSCRIPTION_CACHE[shop]`: the timestamp of the write and the cached
`hasActiveSubscription` flag of the response data. -/
structure CacheEntry where
  timestamp : Int
  hasActiveSubscription : Bool
deriving Repr, DecidableEq

/-- Model of `CACHE_DURATION = 5 * 60 * 1000` (part_001 line 1260): five minutes in
milliseconds. -/
def CACHE_DURATION : Int := 5 * 60 * 1000

/-- Result of the remote entitlement query made by `GET
/api/billing/status`: the fetch threw, the GraphQL response carried
`errors`, or it returned the subscription records. -/
inductive BillingQueryResult where
  | throws
  | graphqlErrors
  | ok (subs : List Subscription)
deriving Repr, DecidableEq

/-- Observable result of one `GET /api/billing/status` request: HTTP
status, the `hasActiveSubscription` flag of the response body, whether the
remote query ran, and the cache entry for the shop after the request. -/
structure BillingStatusResult where
  status : Nat
  hasActiveSubscription : Bool
  queriedRemote : Bool
  cacheAfter : Option CacheEntry
deriving Repr, DecidableEq

/-- The non-hit path of `GET /api/billing/status` (part_001 lines
1589-1658): on a thrown fetch or GraphQL `errors` respond 200 with
`hasActiveSubscription: false` and leave the cache untouched; otherwise
count the records with `status === 'ACTIVE'` (this endpoint applies no
trial-window rule), cache the result with `timestamp = Date.now()` and
respond with it.  Koa's default status 200 applies in every branch since
the handler sets a body and never a status. -/
def billingStatusFetch (cached : Option CacheEntry) (now : Int)
    (q : BillingQueryResult) : BillingStatusResult :=
  match q with
  | .throws => ⟨200, false, true, cached⟩
  | .graphqlErrors => ⟨200, false, true, cached⟩
  | .ok subs =>
    let hasActive := decide (0 < (subs.filter (fun sub => sub.status == "ACTIVE")).length)
    ⟨200, hasActive, true, some ⟨now, hasActive⟩⟩

/-- Model of `GET /api/billing/status` (part_001 lines 1568-1659) for an
authenticated shop: serve the cache when
`cached.timestamp > Date.now() - CACHE_DURATION`, otherwise run the remote
query via `billingStatusFetch`. -/
def billingStatusEndpoint (cached : Option CacheEntry) (now : Int)
    (q : BillingQueryResult) : BillingStatusResult :=
  match cached with
  | some c =>
    if now - CACHE_DURATION < c.timestamp then
      ⟨200, c.hasActiveSubscription, false, some c⟩
    else
      billingStatusFetch (some c) now q
  | none => billingStatusFetch none now q

/-! ## Compliance webhook handlers (src/server/index.js lines 104-201) -/

/-- One compliance webhook handler (`/webhooks/customers/data_request`,
`/webhooks/customers/redact`, `/webhooks/shop/redact` share this body
verbatim): 401 when the `X-Shopify-Hmac-Sha256` header or the raw body is
missing (Koa yields the empty string for a missing header, so absence and
emptiness coincide), 401 when the digest differs from the header, 401 when
anything throws (the surrounding `try`/`catch`), and 200 otherwise.
`digest body` is the external crypto call computing the base64
HMAC-SHA256 of the body under the API secret (`Except.error` models it
throwing).  The returned number is the HTTP status; the handler performs
no other state change in any branch. -/
def complianceWebhook (digest : String → Except Unit String)
    (hmacHeader body : String) : Nat :=
  if hmacHeader.isEmpty || body.isEmpty then 401
  else
    match digest body with
    | .error _ => 401
    | .ok h => if h == hmacHeader then 200 else 401

/-! ## Helper lemmas -/

theorem requiresSubscription_ok_state (path : String) (now : Int)
    (subs : List Subscription) :
    (requiresSubscription path now (Except.ok subs)).hasActiveSubscription =
      some (hasValidSubscription now subs) := by
  unfold requiresSubscription
  dsimp only
  split_ifs <;> rfl

theorem storeSession_mem_id (store : List Session) (s : Session) :
    s ∈ storeSession store s ∧
      ∀ t ∈ storeSession store s, t.id = s.id → t = s := by
  unfold storeSession
  by_cases hany : store.any (fun t => t.id == s.id) = true
  · rw [if_pos hany]
    constructor
    · rcases List.any_eq_true.mp hany with ⟨x, hx, hbeq⟩
      have hfx : (fun t => if t.id == s.id then s else t) x = s := by simp [hbeq]
      exact List.mem_map.mpr ⟨x, hx, hfx⟩
    · intro t ht hid
      rcases List.mem_map.mp ht with ⟨u, hu, hut⟩
      by_cases hb : u.id == s.id
      · rw [if_pos hb] at hut
        exact hut.symm
      · rw [if_neg hb] at hut
        rw [← hut] at hid
        exact absurd (beq_iff_eq.mpr hid) hb
  · rw [if_neg hany]
    constructor
    · exact List.mem_append_right _ (List.mem_singleton.mpr rfl)
    · intro t ht hid
      rcases List.mem_append.mp ht with hl | hr
      · exfalso
        exact hany (List.any_eq_true.mpr ⟨t, hl, beq_iff_eq.mpr hid⟩)
      · exact List.mem_singleton.mp hr

/-! ## C2: the entitlement evaluation rule -/

/-- C2 (counterexample): as stated, the claim's "if and only if" omits the
code's `trialDays > 0` guard.  For a `PENDING` record with `trialDays = 0`,
`createdAt = 100` evaluated at `now = 50`, the claimed condition
`now < createdAt + trialDays days` holds, yet the middleware computes
`hasActiveSubscription = false`. -/
theorem C2_entitlement_rule_cex :
    specSubscriptionGrants 50 ⟨"s1", "PENDING", 0, 100⟩ = true ∧
      (requiresSubscription "/" 50
          (Except.ok [⟨"s1", "PENDING", 0, 100⟩])).hasActiveSubscription = some false := by
  constructor
  · decide
  · decide

/-- C2 (amended): the entitlement evaluation sets `hasActiveSubscription`
to true iff some record has `status == 'ACTIVE'`, or has
`status == 'PENDING'` with `trialDays > 0` and
`now < createdAt + trialDays` days; in particular a `PENDING` record with
`trialDays = 5`, `createdAt = T` grants access exactly for evaluation
times `now < T + 5` days, hence on all of `[T, T+5d)`, and is denied at
`T+5d` and after. -/
theorem C2_entitlement_rule_amended :
    (∀ (path : String) (now : Int) (subs : List Subscription),
      (requiresSubscription path now (Except.ok subs)).hasActiveSubscription = some true ↔
        ∃ sub ∈ subs, sub.status = "ACTIVE" ∨
          (sub.status = "PENDING" ∧ 0 < sub.trialDays ∧
            now < sub.createdAt + sub.trialDays * msPerDay)) ∧
    (∀ T now : Int,
      subscriptionGrants now ⟨"gid", "PENDING", 5, T⟩ = true ↔ now < T + 5 * msPerDay) := by
  constructor
  · intro path now subs
    rw [requiresSubscription_ok_state, Option.some_inj]
    unfold hasValidSubscription
    rw [List.any_eq_true]
    constructor
    · rintro ⟨sub, hmem, hgrant⟩
      exact ⟨sub, hmem, (subscriptionGrants_eq_true_iff now sub).mp hgrant⟩
    · rintro ⟨sub, hmem, hcond⟩
      exact ⟨sub, hmem, (subscriptionGrants_eq_true_iff now sub).mpr hcond⟩
  · intro T now
    rw [subscriptionGrants_eq_true_iff]
    constructor
    · rintro (h | ⟨-, -, h⟩)
      · exact absurd h (by dsimp only; decide)
      · exact h
    · intro h
      exact Or.inr ⟨rfl, by dsimp only; decide, h⟩

/-! ## C3: the subscription status cache TTL -/

/-- C3: a cache entry written at time `t` is served as a hit (cached flag
returned, no remote query) by any read at `tr < t + CACHE_DURATION`, and
is treated as a miss forcing the remote entitlement query for every read
at `tr >= t + CACHE_DURATION`, with `CACHE_DURATION` five minutes. -/
theorem C3_cache_ttl (t tr : Int) (b : Bool) (q : BillingQueryResult) :
    (tr < t + CACHE_DURATION →
      billingStatusEndpoint (some ⟨t, b⟩) tr q = ⟨200, b, false, some ⟨t, b⟩⟩) ∧
    (t + CACHE_DURATION ≤ tr →
      (billingStatusEndpoint (some ⟨t, b⟩) tr q).queriedRemote = true) ∧
    CACHE_DURATION = 5 * 60 * 1000 := by
  refine ⟨?_, ?_, rfl⟩
  · intro h
    unfold billingStatusEndpoint
    dsimp only
    rw [if_pos (by omega)]
  · intro h
    unfold billingStatusEndpoint
    dsimp only
    rw [if_neg (by omega)]
    cases q <;> rfl

/-- C3 (witness): a read one millisecond after the write is a hit; a read
at exactly the TTL is a miss. -/
theorem C3_cache_ttl_witness :
    billingStatusEndpoint (some ⟨0, true⟩) 1 .throws = ⟨200, true, false, some ⟨0, true⟩⟩ ∧
      (billingStatusEndpoint (some ⟨0, true⟩) 300000 .throws).queriedRemote = true :=
  ⟨(C3_cache_ttl 0 1 true .throws).1 (by decide),
    (C3_cache_ttl 0 300000 true .throws).2.1 (by decide)⟩

/-! ## C4: fail-open enforcement on entitlement query error -/

/-- C4: when the remote entitlement query throws, both enforcement
middlewares pass the request to the downstream handler (`next()`), issuing
no redirect and no error status: `requiresSubscription` leaves
`ctx.state.hasActiveSubscription` unset, and `checkBillingOnAppLoad`
reaches `next` in every configuration. -/
theorem C4_fail_open :
    (∀ (path : String) (now : Int),
      requiresSubscription path now (Except.error ()) = ⟨.next, none⟩) ∧
    (∀ (path : String) (shopParam billingParam : Option String)
        (store : List Session) (now : Int),
      (checkBillingOnAppLoad path shopParam billingParam store now
          (Except.error ())).outcome = .next) := by
  constructor
  · intro path now
    rfl
  · intro path sp bp store now
    unfold checkBillingOnAppLoad
    split_ifs <;> try rfl
    dsimp only
    cases resolveOfflineSession store (sp.getD "") with
    | none => rfl
    | some sess =>
      dsimp only
      split_ifs <;> rfl

/-! ## C9: compliance webhook HMAC verification -/

/-- C9: each compliance webhook handler responds 200 iff the
`X-Shopify-Hmac-Sha256` header and the raw body are both present
(non-empty) and the base64 HMAC-SHA256 digest of the body equals the
header; in every other case — missing header or body, a digest mismatch,
or the digest computation throwing — it responds 401.  The handler
performs no state change in any branch. -/
theorem C9_webhook_hmac (digest : String → Except Unit String)
    (hmacHeader body : String) :
    (complianceWebhook digest hmacHeader body = 200 ↔
      hmacHeader ≠ "" ∧ body ≠ "" ∧ digest body = Except.ok hmacHeader) ∧
    (complianceWebhook digest hmacHeader body = 200 ∨
      complianceWebhook digest hmacHeader body = 401) := by
  have hh := String.isEmpty_iff hmacHeader
  have hb := String.isEmpty_iff body
  unfold complianceWebhook
  by_cases h1 : hmacHeader.isEmpty
  · rw [if_pos (by simp [h1])]
    simp only [hh] at h1
    simp [h1]
  · by_cases h2 : body.isEmpty
    · rw [if_pos (by simp [h2])]
      simp only [hb] at h2
      simp [h2]
    · rw [if_neg (by simp [h1, h2])]
      simp only [hh] at h1
      simp only [hb] at h2
      cases hd : digest body with
      | error e => simp
      | ok h =>
        dsimp only
        by_cases h3 : h = hmacHeader
        · subst h3
          simp [h1, h2]
        · rw [if_neg (by simp [h3])]
          simp [h3]

/-! ## C10: fail-closed cached billing-status endpoint -/

/-- C10: whenever `GET /api/billing/status` actually runs the remote query
and that query throws or returns GraphQL errors, the endpoint responds
HTTP 200 with `hasActiveSubscription: false` and writes no cache entry for
the shop — the opposite default to the enforcement middleware's fail-open
behaviour proved in the C4 theorem. -/
theorem C10_billing_status_fail_closed (cached : Option CacheEntry) (now : Int)
    (q : BillingQueryResult)
    (hq : q = .throws ∨ q = .graphqlErrors)
    (hmiss : (billingStatusEndpoint cached now q).queriedRemote = true) :
    (billingStatusEndpoint cached now q).status = 200 ∧
    (billingStatusEndpoint cached now q).hasActiveSubscription = false ∧
    (billingStatusEndpoint cached now q).cacheAfter = cached := by
  have hfetch : ∀ c : Option CacheEntry,
      billingStatusFetch c now q = ⟨200, false, true, c⟩ := by
    intro c
    rcases hq with rfl | rfl <;> rfl
  cases cached with
  | none =>
    unfold billingStatusEndpoint
    rw [hfetch]
    exact ⟨rfl, rfl, rfl⟩
  | some c =>
    unfold billingStatusEndpoint at hmiss ⊢
    dsimp only at hmiss ⊢
    by_cases hc : now - CACHE_DURATION < c.timestamp
    · rw [if_pos hc] at hmiss
      simp at hmiss
    · rw [if_neg hc] at hmiss ⊢
      rw [hfetch]
      exact ⟨rfl, rfl, rfl⟩

/-- C10 (witness): a miss with a thrown query on an empty cache. -/
theorem C10_billing_status_fail_closed_witness :
    (billingStatusEndpoint none 0 .throws).status = 200 ∧
    (billingStatusEndpoint none 0 .throws).hasActiveSubscription = false ∧
    (billingStatusEndpoint none 0 .throws).cacheAfter = none :=
  C10_billing_status_fail_closed none 0 .throws (Or.inl rfl) rfl

/-! ## C7: the bounce redirect strips the stale token -/

/-- C7: for every request (in particular one whose query contains
`id_token=OLD`), the bounce redirect targets `/session-token-bounce` with
a parameter list containing no `id_token` entry, re-attaches the original
path together with the remaining query parameters as the `shopify-reload`
parameter, and every bounce the resolver issues uses exactly this
target. -/
theorem C7_bounce_strips_token (r : AuthRequest) :
    (∀ p ∈ bounceParams r.path r.query, p.1 ≠ "id_token") ∧
    ("shopify-reload",
        r.path ++ "?" ++ serializeParams (r.query.filter (fun p => p.1 != "id_token"))) ∈
      bounceParams r.path r.query ∧
    (∀ (decodeResult : Option Decoded) (exchange : Except Unit TokenXResult)
        (store : List Session) (tgt : String),
      (authenticateRequest r decodeResult exchange store).outcome = .bounce tgt →
      tgt = redirectToSessionTokenBouncePage r.path r.query) ∧
    redirectToSessionTokenBouncePage r.path r.query =
      "/session-token-bounce?" ++ serializeParams (bounceParams r.path r.query) := by
  refine ⟨?_, ?_, ?_, rfl⟩
  · intro p hp
    unfold bounceParams at hp
    rcases List.mem_append.mp hp with hl | hr
    · have := (List.mem_filter.mp hl).2
      simpa using this
    · rw [List.mem_singleton.mp hr]
      dsimp only
      decide
  · unfold bounceParams
    exact List.mem_append_right _ (List.mem_singleton.mpr rfl)
  · intro decodeResult exchange store tgt h
    have hno : ∀ st : List Session,
        (noTokenResponse r st).outcome = .bounce tgt →
        tgt = redirectToSessionTokenBouncePage r.path r.query := by
      intro st hb
      unfold noTokenResponse at hb
      by_cases hh : strTruthy r.authHeader
      · rw [if_neg (by simp [hh])] at hb
        cases hb
      · rw [if_pos (by simp [hh])] at hb
        cases hb
        rfl
    unfold authenticateRequest at h
    cases hext : extractSessionToken r with
    | none =>
      rw [hext] at h
      exact hno store h
    | some tok =>
      rw [hext] at h
      cases decodeResult with
      | none => exact hno store h
      | some d =>
        dsimp only at h
        cases hres : resolveOfflineSession store d.destHost with
        | none =>
          rw [hres] at h
          unfold provisionV1 at h
          cases exchange with
          | error e => cases h
          | ok tx => cases h
        | some sess =>
          rw [hres] at h
          dsimp only at h
          by_cases hv : validToken sess.accessToken
          · rw [if_pos hv] at h
            cases h
          · rw [if_neg hv] at h
            unfold provisionV1 at h
            cases exchange with
            | error e => cases h
            | ok tx => cases h

/-- C7 (witness): the request of the spec's P5 scenario,
`/x?id_token=OLD&shop=s`, with an undecodable token: the issued bounce
target carries `shop=s` and the `shopify-reload` parameter and no
`id_token`. -/
theorem C7_bounce_strips_token_witness :
    ("/session-token-bounce?shop=s&shopify-reload=/x?shop=s" : String) =
      redirectToSessionTokenBouncePage "/x" [("id_token", "OLD"), ("shop", "s")] :=
  (C7_bounce_strips_token ⟨none, [("id_token", "OLD"), ("shop", "s")], "/x"⟩).2.2.1
    none (Except.error ()) [] "/session-token-bounce?shop=s&shopify-reload=/x?shop=s"
    (by decide)

/-! ## More resolver helper lemmas -/

theorem authenticateRequest_provisions (r : AuthRequest) (d : Decoded)
    (x : Except Unit TokenXResult) (store : List Session)
    (htok : (extractSessionToken r).isSome = true)
    (hneed : needsTokenExchange store d.destHost = true) :
    authenticateRequest r (some d) x store = provisionV1 d.destHost x store := by
  unfold authenticateRequest
  cases hext : extractSessionToken r with
  | none =>
    rw [hext] at htok
    simp at htok
  | some tok =>
    dsimp only
    unfold needsTokenExchange at hneed
    cases hres : resolveOfflineSession store d.destHost with
    | none => rfl
    | some sess =>
      dsimp only at hneed ⊢
      rw [if_neg (by simp_all)]

theorem provisionV1_proceed_shop (shop : String) (x : Except Unit TokenXResult)
    (store : List Session) (sh : String) (sess : Session)
    (h : (provisionV1 shop x store).outcome = .proceed sh sess) : sh = shop := by
  unfold provisionV1 at h
  cases x with
  | error e => cases h
  | ok tx =>
    dsimp only at h
    cases h
    rfl

theorem provisionV2_proceed_shop (SCOPES shop : String)
    (x : Except Unit TokenXResultV2) (store : List Session) (sh : String)
    (sess : Session)
    (h : (provisionV2 SCOPES shop x store).outcome = .proceed sh sess) : sh = shop := by
  unfold provisionV2 at h
  cases x with
  | error e => cases h
  | ok tx =>
    dsimp only at h
    by_cases ht : strTruthy (jsOrStr tx.accessToken tx.sessionAccessToken)
    · rw [if_neg (by simp [ht])] at h
      cases h
      rfl
    · rw [if_pos (by simp [ht])] at h
      cases h

/-! ## C5: the trusted shop and the dest hostname -/

/-- C5 (counterexample): in the V2 resolver an attacker-controlled
`?shop=` query parameter overrides the decoded assertion's `dest`
hostname: with `dest` hostname `foo.myshopify.com` and query
`shop=evil.example`, the request proceeds with
`ctx.state.shop = "evil.example"`. -/
theorem C5_shop_from_dest_cex :
    (authenticateRequestV2 "scopes"
        ⟨none, [("id_token", "t"), ("shop", "evil.example")], "/"⟩
        (some ⟨"foo.myshopify.com", "i"⟩)
        (Except.ok ⟨some "tok", none, some "sc", none⟩) []).outcome =
      .proceed "evil.example"
        ⟨"offline_evil.example", "evil.example", "active", false, some "tok", "sc"⟩ ∧
    ("evil.example" : String) ≠ "foo.myshopify.com" := by
  constructor
  · decide
  · decide

/-- C5 (amended): in the primary resolver (src/server/index.js) every
request that proceeds carries exactly the decoded assertion's `dest`
hostname as `ctx.state.shop`; in the V2 resolver (part_001) the attached
shop is the `dest` hostname unless the query carries a non-empty `shop`
parameter differing from it, in which case that query value is attached
instead. -/
theorem C5_shop_from_dest_amended :
    (∀ (r : AuthRequest) (d : Decoded) (x : Except Unit TokenXResult)
        (store : List Session) (sh : String) (sess : Session),
      (authenticateRequest r (some d) x store).outcome = .proceed sh sess →
      sh = d.destHost) ∧
    (∀ (SCOPES : String) (r : AuthRequest) (d : Decoded)
        (x : Except Unit TokenXResultV2) (store : List Session) (sh : String)
        (sess : Session),
      (authenticateRequestV2 SCOPES r (some d) x store).outcome = .proceed sh sess →
      sh = effectiveShopV2 d r.query) := by
  constructor
  · intro r d x store sh sess h
    unfold authenticateRequest at h
    cases hext : extractSessionToken r with
    | none =>
      rw [hext] at h
      unfold noTokenResponse at h
      split_ifs at h
    | some tok =>
      rw [hext] at h
      dsimp only at h
      cases hres : resolveOfflineSession store d.destHost with
      | none =>
        rw [hres] at h
        exact provisionV1_proceed_shop _ _ _ _ _ h
      | some s0 =>
        rw [hres] at h
        dsimp only at h
        by_cases hv : validToken s0.accessToken
        · rw [if_pos hv] at h
          cases h
          rfl
        · rw [if_neg hv] at h
          exact provisionV1_proceed_shop _ _ _ _ _ h
  · intro SCOPES r d x store sh sess h
    unfold authenticateRequestV2 at h
    cases hext : extractSessionToken r with
    | none =>
      rw [hext] at h
      unfold noTokenResponse at h
      split_ifs at h
    | some tok =>
      rw [hext] at h
      dsimp only at h
      cases hres : resolveOfflineSession store (effectiveShopV2 d r.query) with
      | none =>
        rw [hres] at h
        exact provisionV2_proceed_shop _ _ _ _ _ _ h
      | some s0 =>
        rw [hres] at h
        dsimp only at h
        by_cases hv : validToken s0.accessToken
        · rw [if_pos hv] at h
          cases h
          rfl
        · rw [if_neg hv] at h
          exact provisionV2_proceed_shop _ _ _ _ _ _ h

/-- C5 (witness): a concrete proceeding request through the primary
resolver carries the dest hostname. -/
theorem C5_shop_from_dest_amended_witness :
    ("foo.myshopify.com" : String) =
      Decoded.destHost ⟨"foo.myshopify.com", "i"⟩ :=
  C5_shop_from_dest_amended.1 ⟨none, [("id_token", "t")], "/"⟩
    ⟨"foo.myshopify.com", "i"⟩ (Except.ok ⟨"tok", "sc"⟩) [] "foo.myshopify.com"
    ⟨"foo.myshopify.com_offline", "foo.myshopify.com", "active", false, some "tok", "sc"⟩
    (by decide)

/-! ## C8: which stored session the resolver consults -/

/-- C8 (counterexample): the resolver consults only the FIRST non-online
session in store order (`sessions.find(s => !s.isOnline)`), ignoring its
token.  With a store holding a placeholder-token non-online session ahead
of a valid one for the same shop, the claim's conclusion fails: a token
exchange is performed and the valid session `b` is not the one attached. -/
theorem C8_session_pick_cex :
    validToken (some "tok") = true ∧
    (⟨"b", "s.myshopify.com", "active", false, some "tok", "sc"⟩ : Session) ∈
      [(⟨"a", "s.myshopify.com", "active", false, some "placeholder", "sc"⟩ : Session),
        ⟨"b", "s.myshopify.com", "active", false, some "tok", "sc"⟩] ∧
    (authenticateRequest ⟨none, [("id_token", "t")], "/"⟩
        (some ⟨"s.myshopify.com", "i"⟩) (Except.ok ⟨"newtok", "sc2"⟩)
        [⟨"a", "s.myshopify.com", "active", false, some "placeholder", "sc"⟩,
          ⟨"b", "s.myshopify.com", "active", false, some "tok", "sc"⟩]).exchanged = true ∧
    (authenticateRequest ⟨none, [("id_token", "t")], "/"⟩
        (some ⟨"s.myshopify.com", "i"⟩) (Except.ok ⟨"newtok", "sc2"⟩)
        [⟨"a", "s.myshopify.com", "active", false, some "placeholder", "sc"⟩,
          ⟨"b", "s.myshopify.com", "active", false, some "tok", "sc"⟩]).outcome ≠
      .proceed "s.myshopify.com"
        ⟨"b", "s.myshopify.com", "active", false, some "tok", "sc"⟩ := by
  refine ⟨by decide, by decide, by decide, by decide⟩

/-- C8 (amended): whenever the FIRST non-online session in store order for
the derived shop carries a present, non-placeholder access token, the
resolver attaches exactly that session, performs no token exchange and
leaves the store unchanged; only this first non-online session is
consulted, and the resolver may re-exchange even when a later stored
non-online session of the shop holds a valid token. -/
theorem C8_session_pick_amended (r : AuthRequest) (d : Decoded)
    (x : Except Unit TokenXResult) (store : List Session) (sess : Session)
    (htok : (extractSessionToken r).isSome = true)
    (hfind : resolveOfflineSession store d.destHost = some sess)
    (hvalid : validToken sess.accessToken = true) :
    authenticateRequest r (some d) x store =
      ⟨.proceed d.destHost sess, store, false⟩ := by
  unfold authenticateRequest
  cases hext : extractSessionToken r with
  | none =>
    rw [hext] at htok
    simp at htok
  | some tok =>
    dsimp only
    rw [hfind]
    dsimp only
    rw [if_pos hvalid]

/-- C8 (witness): a store holding a single valid offline session for the
shop is consulted without an exchange. -/
theorem C8_session_pick_amended_witness :
    authenticateRequest ⟨none, [("id_token", "t")], "/"⟩
        (some ⟨"s.myshopify.com", "i"⟩) (Except.ok ⟨"newtok", "sc2"⟩)
        [⟨"b", "s.myshopify.com", "active", false, some "tok", "sc"⟩] =
      ⟨.proceed "s.myshopify.com"
          ⟨"b", "s.myshopify.com", "active", false, some "tok", "sc"⟩,
        [⟨"b", "s.myshopify.com", "active", false, some "tok", "sc"⟩], false⟩ :=
  C8_session_pick_amended ⟨none, [("id_token", "t")], "/"⟩ ⟨"s.myshopify.com", "i"⟩
    (Except.ok ⟨"newtok", "sc2"⟩)
    [⟨"b", "s.myshopify.com", "active", false, some "tok", "sc"⟩]
    ⟨"b", "s.myshopify.com", "active", false, some "tok", "sc"⟩
    (by decide) (by decide) (by decide)

/-! ## C6: token exchange failure and success during provisioning -/

/-- C6: when provisioning runs (a token is present, decode succeeded, and
no valid offline session exists), a failing token exchange yields the 500
response `Token exchange failed` with the store unchanged and no
downstream handler invoked (the outcome is not `proceed`); a successful
exchange stores the new offline session — overwriting any prior entry
with its id: afterwards the new session is in the store and every entry
carrying its id is that session — and proceeds with it. -/
theorem C6_exchange_failure (r : AuthRequest) (d : Decoded)
    (store : List Session)
    (htok : (extractSessionToken r).isSome = true)
    (hneed : needsTokenExchange store d.destHost = true) :
    authenticateRequest r (some d) (Except.error ()) store =
      ⟨.serverError "Token exchange failed", store, true⟩ ∧
    (∀ tx : TokenXResult,
      authenticateRequest r (some d) (Except.ok tx) store =
        ⟨.proceed d.destHost
            ⟨d.destHost ++ "_offline", d.destHost, "active", false,
              some tx.accessToken, tx.scope⟩,
          storeSession store
            ⟨d.destHost ++ "_offline", d.destHost, "active", false,
              some tx.accessToken, tx.scope⟩,
          true⟩) ∧
    (∀ tx : TokenXResult,
      (⟨d.destHost ++ "_offline", d.destHost, "active", false,
          some tx.accessToken, tx.scope⟩ : Session) ∈
        (authenticateRequest r (some d) (Except.ok tx) store).store ∧
      ∀ t ∈ (authenticateRequest r (some d) (Except.ok tx) store).store,
        t.id = d.destHost ++ "_offline" →
        t = ⟨d.destHost ++ "_offline", d.destHost, "active", false,
          some tx.accessToken, tx.scope⟩) := by
  refine ⟨?_, ?_, ?_⟩
  · rw [authenticateRequest_provisions r d _ store htok hneed]
    rfl
  · intro tx
    rw [authenticateRequest_provisions r d _ store htok hneed]
    rfl
  · intro tx
    rw [authenticateRequest_provisions r d _ store htok hneed]
    have hmem := storeSession_mem_id store
      ⟨d.destHost ++ "_offline", d.destHost, "active", false,
        some tx.accessToken, tx.scope⟩
    exact ⟨hmem.1, hmem.2⟩

/-- C6 (witness): a fresh shop with a failing exchange receives the 500
and an empty store. -/
theorem C6_exchange_failure_witness :
    authenticateRequest ⟨none, [("id_token", "t")], "/"⟩ (some ⟨"foo", "i"⟩)
        (Except.error ()) [] =
      ⟨.serverError "Token exchange failed", [], true⟩ :=
  (C6_exchange_failure ⟨none, [("id_token", "t")], "/"⟩ ⟨"foo", "i"⟩ []
    (by decide) (by decide)).1

/-! ## C1: idempotent provisioning and the deterministic session id -/

theorem extract_query_token (etok p : String) (he : etok.isEmpty = false) :
    extractSessionToken ⟨none, [("id_token", etok)], p⟩ = some etok := by
  simp [extractSessionToken, getSessionTokenHeader, getSessionTokenFromUrlParam,
    queryGet, jsOrStr, strTruthy, he]

theorem authV1_first_call (s etok tok scope : String) (he : etok.isEmpty = false) :
    authenticateRequest ⟨none, [("id_token", etok)], "/"⟩ (some ⟨s, "iss"⟩)
      (Except.ok ⟨tok, scope⟩) [] =
      ⟨.proceed s ⟨s ++ "_offline", s, "active", false, some tok, scope⟩,
        [⟨s ++ "_offline", s, "active", false, some tok, scope⟩], true⟩ := by
  unfold authenticateRequest
  rw [extract_query_token etok "/" he]
  rfl

theorem authV1_second_call (s etok tok scope : String)
    (x : Except Unit TokenXResult) (he : etok.isEmpty = false)
    (hv : validToken (some tok) = true) :
    authenticateRequest ⟨none, [("id_token", etok)], "/"⟩ (some ⟨s, "iss"⟩) x
      [⟨s ++ "_offline", s, "active", false, some tok, scope⟩] =
      ⟨.proceed s ⟨s ++ "_offline", s, "active", false, some tok, scope⟩,
        [⟨s ++ "_offline", s, "active", false, some tok, scope⟩], false⟩ := by
  have hres : resolveOfflineSession
      [⟨s ++ "_offline", s, "active", false, some tok, scope⟩] s =
      some ⟨s ++ "_offline", s, "active", false, some tok, scope⟩ := by
    simp [resolveOfflineSession, findSessionsByShop]
  unfold authenticateRequest
  rw [extract_query_token etok "/" he]
  dsimp only
  rw [hres]
  dsimp only
  rw [if_pos hv]

theorem authV2_first_call (SCOPES s etok tok scope : String)
    (he : etok.isEmpty = false) (ht : tok.isEmpty = false)
    (hsc : scope.isEmpty = false) :
    authenticateRequestV2 SCOPES ⟨none, [("id_token", etok)], "/"⟩
      (some ⟨s, "iss"⟩) (Except.ok ⟨some tok, none, some scope, none⟩) [] =
      ⟨.proceed s ⟨"offline_" ++ s, s, "active", false, some tok, scope⟩,
        [⟨"offline_" ++ s, s, "active", false, some tok, scope⟩], true⟩ := by
  unfold authenticateRequestV2
  rw [extract_query_token etok "/" he]
  dsimp only
  show provisionV2 SCOPES (effectiveShopV2 ⟨s, "iss"⟩ [("id_token", etok)])
      (Except.ok ⟨some tok, none, some scope, none⟩) [] = _
  have heff : effectiveShopV2 ⟨s, "iss"⟩ [("id_token", etok)] = s := rfl
  rw [heff]
  simp [provisionV2, jsOrStr, strTruthy, ht, hsc, storeSession]

theorem authV2_second_call (SCOPES s etok tok scope : String)
    (x : Except Unit TokenXResultV2) (he : etok.isEmpty = false)
    (hv : validToken (some tok) = true) :
    authenticateRequestV2 SCOPES ⟨none, [("id_token", etok)], "/"⟩
      (some ⟨s, "iss"⟩) x
      [⟨"offline_" ++ s, s, "active", false, some tok, scope⟩] =
      ⟨.proceed s ⟨"offline_" ++ s, s, "active", false, some tok, scope⟩,
        [⟨"offline_" ++ s, s, "active", false, some tok, scope⟩], false⟩ := by
  have hres : resolveOfflineSession
      [⟨"offline_" ++ s, s, "active", false, some tok, scope⟩] s =
      some ⟨"offline_" ++ s, s, "active", false, some tok, scope⟩ := by
    simp [resolveOfflineSession, findSessionsByShop]
  unfold authenticateRequestV2
  rw [extract_query_token etok "/" he]
  dsimp only
  have heff : effectiveShopV2 ⟨s, "iss"⟩ [("id_token", etok)] = s := rfl
  rw [heff, hres]
  dsimp only
  rw [if_pos hv]

/-- C1 (counterexample): in the primary resolver (src/server/index.js line
358) the deterministic session id is `` `${shop}_offline` ``, not
`offline_<shop>`.  Two sequential resolver calls for the previously unseen
shop `foo.myshopify.com` leave exactly one stored session — but its id is
`foo.myshopify.com_offline`, which differs from
`offline_foo.myshopify.com`. -/
theorem C1_provisioning_cex :
    (findSessionsByShop
        (authenticateRequest ⟨none, [("id_token", "t")], "/"⟩
          (some ⟨"foo.myshopify.com", "i"⟩) (Except.ok ⟨"tok2", "sc2"⟩)
          ((authenticateRequest ⟨none, [("id_token", "t")], "/"⟩
            (some ⟨"foo.myshopify.com", "i"⟩) (Except.ok ⟨"tok123", "sc"⟩)
            []).store)).store
        "foo.myshopify.com").map Session.id = ["foo.myshopify.com_offline"] ∧
    ("foo.myshopify.com_offline" : String) ≠ "offline_foo.myshopify.com" := by
  refine ⟨by decide, by decide⟩

/-- C1 (amended): for every shop `s`, calling the resolver twice in
sequence with valid assertions for `s` against an initially empty store
yields exactly one stored session for `s` with the variant's
deterministic id — `` `${s}_offline` `` in src/server/index.js and
`` `offline_${s}` `` in the part_001 resolver — holding the credential of
the first exchange, and the second call performs no further token
exchange. -/
theorem C1_provisioning_amended
    (s etok tok scope tok2 scope2 SCOPES : String)
    (he : etok.isEmpty = false)
    (hv : validToken (some tok) = true)
    (hsc : scope.isEmpty = false) :
    (findSessionsByShop
        (authenticateRequest ⟨none, [("id_token", etok)], "/"⟩ (some ⟨s, "iss"⟩)
          (Except.ok ⟨tok2, scope2⟩)
          ((authenticateRequest ⟨none, [("id_token", etok)], "/"⟩
            (some ⟨s, "iss"⟩) (Except.ok ⟨tok, scope⟩) []).store)).store s =
      [⟨s ++ "_offline", s, "active", false, some tok, scope⟩] ∧
      (authenticateRequest ⟨none, [("id_token", etok)], "/"⟩ (some ⟨s, "iss"⟩)
        (Except.ok ⟨tok2, scope2⟩)
        ((authenticateRequest ⟨none, [("id_token", etok)], "/"⟩
          (some ⟨s, "iss"⟩) (Except.ok ⟨tok, scope⟩) []).store)).exchanged =
        false) ∧
    (findSessionsByShop
        (authenticateRequestV2 SCOPES ⟨none, [("id_token", etok)], "/"⟩
          (some ⟨s, "iss"⟩) (Except.ok ⟨some tok2, none, some scope2, none⟩)
          ((authenticateRequestV2 SCOPES ⟨none, [("id_token", etok)], "/"⟩
            (some ⟨s, "iss"⟩) (Except.ok ⟨some tok, none, some scope, none⟩)
            []).store)).store s =
      [⟨"offline_" ++ s, s, "active", false, some tok, scope⟩] ∧
      (authenticateRequestV2 SCOPES ⟨none, [("id_token", etok)], "/"⟩
        (some ⟨s, "iss"⟩) (Except.ok ⟨some tok2, none, some scope2, none⟩)
        ((authenticateRequestV2 SCOPES ⟨none, [("id_token", etok)], "/"⟩
          (some ⟨s, "iss"⟩) (Except.ok ⟨some tok, none, some scope, none⟩)
          []).store)).exchanged = false) := by
  have ht : tok.isEmpty = false := by
    have hv' := hv
    simp [validToken] at hv'
    exact hv'.1
  constructor
  · rw [authV1_first_call s etok tok scope he]
    dsimp only
    rw [authV1_second_call s etok tok scope _ he hv]
    constructor
    · simp [findSessionsByShop]
    · rfl
  · rw [authV2_first_call SCOPES s etok tok scope he ht hsc]
    dsimp only
    rw [authV2_second_call SCOPES s etok tok scope _ he hv]
    constructor
    · simp [findSessionsByShop]
    · rfl

/-- C1 (witness): the amended provisioning behaviour at shop
`foo.myshopify.com` with concrete tokens. -/
theorem C1_provisioning_amended_witness :
    (findSessionsByShop
        (authenticateRequest ⟨none, [("id_token", "t")], "/"⟩
          (some ⟨"foo.myshopify.com", "iss"⟩) (Except.ok ⟨"tok456", "sc2"⟩)
          ((authenticateRequest ⟨none, [("id_token", "t")], "/"⟩
            (some ⟨"foo.myshopify.com", "iss"⟩) (Except.ok ⟨"tok123", "sc"⟩)
            []).store)).store "foo.myshopify.com" =
      [⟨"foo.myshopify.com" ++ "_offline", "foo.myshopify.com", "active", false,
        some "tok123", "sc"⟩] ∧
      (authenticateRequest ⟨none, [("id_token", "t")], "/"⟩
        (some ⟨"foo.myshopify.com", "iss"⟩) (Except.ok ⟨"tok456", "sc2"⟩)
        ((authenticateRequest ⟨none, [("id_token", "t")], "/"⟩
          (some ⟨"foo.myshopify.com", "iss"⟩) (Except.ok ⟨"tok123", "sc"⟩)
          []).store)).exchanged = false) ∧
    (findSessionsByShop
        (authenticateRequestV2 "scopes" ⟨none, [("id_token", "t")], "/"⟩
          (some ⟨"foo.myshopify.com", "iss"⟩)
          (Except.ok ⟨some "tok456", none, some "sc2", none⟩)
          ((authenticateRequestV2 "scopes" ⟨none, [("id_token", "t")], "/"⟩
            (some ⟨"foo.myshopify.com", "iss"⟩)
            (Except.ok ⟨some "tok123", none, some "sc", none⟩)
            []).store)).store "foo.myshopify.com" =
      [⟨"offline_" ++ "foo.myshopify.com", "foo.myshopify.com", "active", false,
        some "tok123", "sc"⟩] ∧
      (authenticateRequestV2 "scopes" ⟨none, [("id_token", "t")], "/"⟩
        (some ⟨"foo.myshopify.com", "iss"⟩)
        (Except.ok ⟨some "tok456", none, some "sc2", none⟩)
        ((authenticateRequestV2 "scopes" ⟨none, [("id_token", "t")], "/"⟩
          (some ⟨"foo.myshopify.com", "iss"⟩)
          (Except.ok ⟨some "tok123", none, some "sc", none⟩)
          []).store)).exchanged = false) :=
  C1_provisioning_amended "foo.myshopify.com" "t" "tok123" "sc" "tok456" "sc2"
    "scopes" (by decide) (by decide) (by decide)
